import Mathlib

/-!
Verification of the Grafana live streaming core
(public/app/features/live/live.ts, class CentrifugeSrv).

The file shallowly embeds the registry, channel-initialization,
and data-stream logic of live.ts. Collaborators that live.ts imports
but whose code is not part of this development (./channel, ./scopes,
and the StreamingDataFrame / address helpers from grafana-data) are
modelled from the specification, and each such definition carries a
doc comment starting with: Modelled from the spec.
-/

namespace Live

/-- Connection state of a live channel (LiveChannelConnectionState from
grafana-data). Modelled from the spec: status values Pending, Connected,
Disconnected, Shutdown, Invalid. -/
inductive LiveChannelConnectionState where
  | Pending
  | Connected
  | Disconnected
  | Shutdown
  | Invalid
deriving DecidableEq, Repr

/-- A live channel address (LiveChannelAddress from grafana-data):
the immutable identity triple scope / namespace / path. The namespace
component is called ns because namespace is a reserved word. -/
structure LiveChannelAddress where
  scope : String
  ns : String
  path : String
deriving DecidableEq, Repr

/-- The registry key for an address, live.ts line 111:
id = addr.scope / addr.namespace / addr.path (slash-joined string). -/
def channelId (addr : LiveChannelAddress) : String :=
  addr.scope ++ "/" ++ addr.ns ++ "/" ++ addr.path

/-! ### Association-list model of the JS Map

live.ts keeps the registry in a Map (field `open`). We model a JS Map
as an association list with the Map get / set / delete operations. -/

/-- Map.get: the value bound to the first (and, under KeysNodup, only)
occurrence of key k. -/
def mapGet [DecidableEq κ] : List (κ × α) → κ → Option α
  | [], _ => none
  | p :: rest, k => if p.1 = k then some p.2 else mapGet rest k

/-- Map.set: replace the binding of k if present, otherwise append it. -/
def mapSet [DecidableEq κ] (m : List (κ × α)) (k : κ) (v : α) : List (κ × α) :=
  match m with
  | [] => [(k, v)]
  | p :: rest => if p.1 = k then (k, v) :: rest else p :: mapSet rest k v

/-- Map.delete: remove every binding of k. -/
def mapDelete [DecidableEq κ] : List (κ × α) → κ → List (κ × α)
  | [], _ => []
  | p :: rest, k => if p.1 = k then mapDelete rest k else p :: mapDelete rest k

/-- Each key is bound at most once: every entry's key is absent from
the tail after it. -/
def KeysNodup [DecidableEq κ] : List (κ × α) → Prop
  | [] => True
  | p :: rest => mapGet rest p.1 = none ∧ KeysNodup rest

theorem mapGet_set_self [DecidableEq κ] (m : List (κ × α)) (k : κ) (v : α) :
    mapGet (mapSet m k v) k = some v := by
  induction m with
  | nil => simp [mapSet, mapGet]
  | cons p rest ih =>
    by_cases h : p.1 = k <;> simp [mapSet, mapGet, h, ih]

theorem mapGet_set_ne [DecidableEq κ] (m : List (κ × α)) (k k' : κ) (v : α)
    (h : k' ≠ k) : mapGet (mapSet m k v) k' = mapGet m k' := by
  have hk : ¬ (k = k') := fun hh => h hh.symm
  induction m with
  | nil => simp [mapSet, mapGet, hk]
  | cons p rest ih =>
    by_cases hp : p.1 = k
    · subst hp
      simp [mapSet, mapGet, hk]
    · simp only [mapSet, if_neg hp, mapGet]
      by_cases hp' : p.1 = k' <;> simp [hp', ih]

theorem mapGet_delete_self [DecidableEq κ] (m : List (κ × α)) (k : κ) :
    mapGet (mapDelete m k) k = none := by
  induction m with
  | nil => simp [mapDelete, mapGet]
  | cons p rest ih =>
    by_cases h : p.1 = k <;> simp [mapDelete, mapGet, h, ih]

theorem mapGet_delete_ne [DecidableEq κ] (m : List (κ × α)) (k k' : κ)
    (h : k' ≠ k) : mapGet (mapDelete m k) k' = mapGet m k' := by
  induction m with
  | nil => simp [mapDelete, mapGet]
  | cons p rest ih =>
    by_cases hp : p.1 = k
    · subst hp
      have hk : ¬ (p.1 = k') := fun hh => h hh.symm
      simp [mapDelete, mapGet, hk, ih]
    · simp only [mapDelete, if_neg hp, mapGet]
      by_cases hp' : p.1 = k' <;> simp [hp', ih]

theorem keysNodup_set [DecidableEq κ] (m : List (κ × α)) (k : κ) (v : α)
    (h : KeysNodup m) : KeysNodup (mapSet m k v) := by
  induction m with
  | nil => simp [mapSet, KeysNodup, mapGet]
  | cons p rest ih =>
    obtain ⟨h1, h2⟩ := h
    by_cases hp : p.1 = k
    · subst hp
      simp only [mapSet, if_pos rfl, KeysNodup]
      exact ⟨h1, h2⟩
    · simp only [mapSet, if_neg hp, KeysNodup]
      refine ⟨?_, ih h2⟩
      rw [mapGet_set_ne rest k p.1 v hp]
      exact h1

/-! ### Frame Buffer -/

/-- A frame message envelope (DataFrameJSON from grafana-data).
Modelled from the spec: an envelope that is either a schema-defining
message (ordered field name list, possibly arriving with data) or a
data-only message (rows keyed to the last-seen schema). -/
structure DataFrameJSON where
  schema : Option (List String) := none
  data : List (List Int) := []
deriving DecidableEq, Repr

/-- The suffix of l of length at most k: the most recent k elements
when l is read in arrival order. -/
def takeLast (k : Nat) (l : List α) : List α :=
  l.drop (l.length - k)

/-- Ring-buffer capping. Modelled from the spec: when configured with a
maximum length, pushing past capacity drops the oldest rows first. -/
def capRows (maxLength : Option Nat) (rows : List (List Int)) : List (List Int) :=
  match maxLength with
  | none => rows
  | some k => takeLast k rows

/-- The Frame Buffer (StreamingDataFrame from grafana-data, not under
src/). Modelled from the spec: holds a schema (ordered field
definitions) and a growing set of rows, bounded by a configurable
maximum buffer size. -/
structure StreamingDataFrame where
  schema : List String
  rows : List (List Int)
  maxLength : Option Nat
deriving DecidableEq, Repr

/-- Modelled from the spec: the StreamingDataFrame constructor builds a
buffer from an initial message and the configured maximum length. -/
def StreamingDataFrame.ofMsg (msg : DataFrameJSON) (maxLength : Option Nat) :
    StreamingDataFrame :=
  { schema := msg.schema.getD []
    rows := capRows maxLength msg.data
    maxLength := maxLength }

/-- Modelled from the spec: push applies one incremental message — a
message carrying a schema resets the buffer's column layout, a message
carrying only row data appends rows under the existing schema; in both
cases the bounded buffer keeps only the most recent rows. -/
def StreamingDataFrame.push (df : StreamingDataFrame) (msg : DataFrameJSON) :
    StreamingDataFrame :=
  match msg.schema with
  | some sch => { df with schema := sch, rows := capRows df.maxLength msg.data }
  | none => { df with rows := capRows df.maxLength (df.rows ++ msg.data) }

theorem takeLast_length_of_le (k : Nat) (l : List α) (h : k ≤ l.length) :
    (takeLast k l).length = k := by
  simp [takeLast]
  omega

/-- C4: pushing a data-only message into a Frame Buffer configured with
maximum length K retains exactly the most recent K rows of the old rows
followed by the pushed rows (a suffix, so the oldest rows are dropped
first), leaves the schema unchanged, and keeps the configured maximum. -/
theorem push_fifo_eviction (df : StreamingDataFrame) (msg : DataFrameJSON)
    (K : Nat) (hmax : df.maxLength = some K) (hschema : msg.schema = none) :
    (df.push msg).schema = df.schema ∧
    (df.push msg).rows = takeLast K (df.rows ++ msg.data) ∧
    (K ≤ (df.rows ++ msg.data).length → (df.push msg).rows.length = K) ∧
    (df.push msg).rows <:+ df.rows ++ msg.data ∧
    (df.push msg).maxLength = some K := by
  refine ⟨?_, ?_, ?_, ?_, ?_⟩
  · simp [StreamingDataFrame.push, hschema]
  · simp [StreamingDataFrame.push, hschema, hmax, capRows]
  · intro hK
    simp [StreamingDataFrame.push, hschema, hmax, capRows]
    exact takeLast_length_of_le K _ hK
  · simp [StreamingDataFrame.push, hschema, hmax, capRows, takeLast]
    exact List.drop_suffix _ _
  · simp [StreamingDataFrame.push, hschema, hmax]

/-- Witness for C4: a buffer holding rows [r1, r2] with maximum 3,
pushed two more rows, keeps the most recent 3 and drops the oldest. -/
theorem push_fifo_eviction_witness :
    (StreamingDataFrame.push
        { schema := ["time", "value"], rows := [[1, 10], [2, 20]],
          maxLength := some 3 }
        { schema := none, data := [[3, 30], [4, 40]] }).schema = ["time", "value"] ∧
    (StreamingDataFrame.push
        { schema := ["time", "value"], rows := [[1, 10], [2, 20]],
          maxLength := some 3 }
        { schema := none, data := [[3, 30], [4, 40]] }).rows =
      [[2, 20], [3, 30], [4, 40]] := by
  have h := push_fifo_eviction
    { schema := ["time", "value"], rows := [[1, 10], [2, 20]], maxLength := some 3 }
    { schema := none, data := [[3, 30], [4, 40]] } 3 rfl rfl
  exact ⟨h.1, by rw [h.2.1]; decide⟩

/-! ### Scope Resolver interface

The scope implementations live in ./scopes (not under src/); live.ts
only consumes the interface getChannelSupport / getChannelConfig. -/

/-- Channel capability descriptor (LiveChannelConfig from grafana-data).
Modelled from the spec: describes what a channel may do. -/
structure LiveChannelConfig where
  path : String
  hasPresence : Bool := false
deriving DecidableEq, Repr

/-- Modelled from the spec: a Support resolves the configuration for a
path; an unknown path is the none sentinel, not an exception. -/
structure ChannelSupport where
  getChannelConfig : String → Option LiveChannelConfig

/-- Modelled from the spec: a Scope resolves a channel support object
for a namespace, asynchronously; an unknown namespace is the none
sentinel, not an exception. -/
structure GrafanaLiveScope where
  getChannelSupport : String → Option ChannelSupport

/-- The scope table built in the CentrifugeSrv constructor,
live.ts lines 75-80: exactly four registered scope keys (the
LiveChannelScope enum string values), each mapped to its scope
implementation; every other scope string resolves to none. -/
def mkScopes (core ds plugin stream : GrafanaLiveScope) :
    String → Option GrafanaLiveScope :=
  fun s =>
    if s = "grafana" then some core
    else if s = "ds" then some ds
    else if s = "plugin" then some plugin
    else if s = "stream" then some stream
    else none

/-! ### Channel objects and the registry state

Channel objects have reference identity in JS. We model the heap as a
store keyed by an allocation token (a Nat drawn from nextToken), so
reference equality of channels is equality of tokens. -/

/-- The mutable state of one CentrifugeLiveChannel object. The
statusErrors field lists the errors surfaced as status events on the
channel's own stream, oldest first (the stream history of errors). -/
structure ChannelState where
  id : String
  addr : LiveChannelAddress
  state : LiveChannelConnectionState
  statusErrors : List String
  lastMessageWithSchema : Option DataFrameJSON := none
deriving DecidableEq, Repr

/-- Modelled from the spec: the CentrifugeLiveChannel constructor from
./channel (not under src/) — a freshly created Channel starts in the
Pending state with an empty stream history. -/
def newLiveChannel (id : String) (addr : LiveChannelAddress) : ChannelState :=
  { id := id, addr := addr, state := .Pending, statusErrors := [] }

/-- Modelled from the spec: getErrorChannel from ./channel (not under
src/) — returns a Channel that is immediately Invalid, with the error
surfaced on its status stream. -/
def getErrorChannel (msg : String) (id : String) (addr : LiveChannelAddress) :
    ChannelState :=
  { id := id, addr := addr, state := .Invalid, statusErrors := [msg] }

/-- The state of a CentrifugeSrv instance: the registry map `open`
(live.ts line 47, a Map from id string to channel object), the heap of
allocated channel objects keyed by allocation token, and the next fresh
token. -/
structure SrvState where
  openMap : List (String × Nat)
  channels : List (Nat × ChannelState)
  nextToken : Nat
deriving DecidableEq, Repr

/-- A CentrifugeSrv with no channels yet. -/
def emptySrv : SrvState := { openMap := [], channels := [], nextToken := 0 }

/-- The outcome of a getChannel call: the token of the returned channel
object, tagged by which branch of live.ts lines 110-139 produced it. -/
inductive GetChannelOutcome where
  | existing (tok : Nat)
  | created (tok : Nat)
  | errorChannel (tok : Nat)
deriving DecidableEq, Repr

/-- The token (object identity) of the channel a getChannel call returned. -/
def GetChannelOutcome.tok : GetChannelOutcome → Nat
  | .existing t => t
  | .created t => t
  | .errorChannel t => t

/-- getChannel, live.ts lines 110-139 (synchronous part): compute the
id key; return the registered channel if the map holds one; otherwise,
for an unknown scope return a fresh error channel without registering
it; otherwise allocate a fresh Pending channel, register it, and return
it (its background initialization is the separate completeInit step). -/
def getChannel (scopes : String → Option GrafanaLiveScope) (s : SrvState)
    (addr : LiveChannelAddress) : SrvState × GetChannelOutcome :=
  let id := channelId addr
  match mapGet s.openMap id with
  | some tok => (s, .existing tok)
  | none =>
    match scopes addr.scope with
    | none =>
      let tok := s.nextToken
      ({ s with
          channels := mapSet s.channels tok (getErrorChannel "invalid scope" id addr)
          nextToken := tok + 1 },
        .errorChannel tok)
    | some _ =>
      let tok := s.nextToken
      ({ openMap := mapSet s.openMap id tok
         channels := mapSet s.channels tok (newLiveChannel id addr)
         nextToken := tok + 1 },
        .created tok)

/-- The failure analysis of initChannel, live.ts lines 141-157: no
support for the namespace throws; no config for the path throws; then
the transport subscribe is issued (after the connection gate), whose
rejection is the remaining failure mode, passed in as subscribeResult. -/
def initChannelResult (scope : GrafanaLiveScope) (addr : LiveChannelAddress)
    (subscribeResult : Except String Unit) : Except String Unit :=
  match scope.getChannelSupport addr.ns with
  | none => .error (addr.ns ++ " does not support streaming")
  | some support =>
    match support.getChannelConfig addr.path with
    | none => .error ("unknown path: " ++ addr.path)
    | some _ => subscribeResult

/-- The catch handler of the background initialization, live.ts lines
129-135: mark the channel Invalid, surface the error on the channel's
own stream (shutdownWithError — modelled from the spec: surfaced once
as a status event), and delete the channel's id from the registry map. -/
def handleInitError (s : SrvState) (tok : Nat) (err : String) : SrvState :=
  match mapGet s.channels tok with
  | none => s
  | some ch =>
    { s with
        channels := mapSet s.channels tok
          { ch with state := .Invalid, statusErrors := ch.statusErrors ++ [err] }
        openMap := mapDelete s.openMap ch.id }

/-- The background completion of a channel's initialization: on failure
run the catch handler of live.ts lines 129-135; on success the channel
becomes Connected (modelled from the spec: Pending to Connected once
the transport subscription acknowledges). -/
def completeInit (s : SrvState) (tok : Nat) (scope : GrafanaLiveScope)
    (subscribeResult : Except String Unit) : SrvState :=
  match mapGet s.channels tok with
  | none => s
  | some ch =>
    match initChannelResult scope ch.addr subscribeResult with
    | .error err => handleInitError s tok err
    | .ok _ =>
      { s with channels := mapSet s.channels tok { ch with state := .Connected } }

/-- Explicit channel shutdown: the channel reaches the terminal
Shutdown state (modelled from the spec) and its registered
shutdownCallback, live.ts lines 123-125, deletes its id from the
registry map. -/
def shutdownChannel (s : SrvState) (tok : Nat) : SrvState :=
  match mapGet s.channels tok with
  | none => s
  | some ch =>
    { s with
        channels := mapSet s.channels tok { ch with state := .Shutdown }
        openMap := mapDelete s.openMap ch.id }

/-! ### Concrete scope tables for instantiations -/

/-- A scope whose supports resolve no path configuration. -/
def demoScope : GrafanaLiveScope :=
  { getChannelSupport := fun _ => some { getChannelConfig := fun _ => none } }

/-- A scope whose supports resolve every path. -/
def demoScopeOk : GrafanaLiveScope :=
  { getChannelSupport := fun _ =>
      some { getChannelConfig := fun p => some { path := p } } }

/-- The four-entry scope table built over demoScope. -/
def demoScopes : String → Option GrafanaLiveScope :=
  mkScopes demoScope demoScope demoScope demoScope

/-- The four-entry scope table built over demoScopeOk. -/
def demoScopesOk : String → Option GrafanaLiveScope :=
  mkScopes demoScopeOk demoScopeOk demoScopeOk demoScopeOk

/-! ### Registry theorems -/

/-- C1: getChannel deduplicates by the slash-joined id key. For an
address with a known scope, a call leaves the registry with exactly one
binding for that id (keys stay duplicate-free, so at most one live
channel per address), and an immediately following call with an equal
address returns the reference-identical channel object (the same
allocation token) without changing the state. -/
theorem getChannel_dedup (scopes : String → Option GrafanaLiveScope)
    (s : SrvState) (addr : LiveChannelAddress)
    (hscope : (scopes addr.scope).isSome = true)
    (hinv : KeysNodup s.openMap) :
    KeysNodup (getChannel scopes s addr).1.openMap ∧
    ∃ tok, ((getChannel scopes s addr).2 = .existing tok ∨
            (getChannel scopes s addr).2 = .created tok) ∧
      mapGet (getChannel scopes s addr).1.openMap (channelId addr) = some tok ∧
      getChannel scopes (getChannel scopes s addr).1 addr =
        ((getChannel scopes s addr).1, .existing tok) := by
  cases hget : mapGet s.openMap (channelId addr) with
  | some tok =>
    have h1 : getChannel scopes s addr = (s, .existing tok) := by
      simp [getChannel, hget]
    rw [h1]
    exact ⟨hinv, tok, Or.inl rfl, hget, by simp [getChannel, hget]⟩
  | none =>
    obtain ⟨scope, hsc⟩ := Option.isSome_iff_exists.mp hscope
    have h1 : getChannel scopes s addr =
        ({ openMap := mapSet s.openMap (channelId addr) s.nextToken
           channels := mapSet s.channels s.nextToken
             (newLiveChannel (channelId addr) addr)
           nextToken := s.nextToken + 1 }, .created s.nextToken) := by
      simp [getChannel, hget, hsc]
    rw [h1]
    refine ⟨keysNodup_set _ _ _ hinv, s.nextToken, Or.inr rfl,
      mapGet_set_self _ _ _, ?_⟩
    simp [getChannel, mapGet_set_self]

/-- Witness for C1 at a concrete address over an empty registry. -/
theorem getChannel_dedup_witness :
    KeysNodup (getChannel demoScopes emptySrv ⟨"grafana", "dashboard", "abc"⟩).1.openMap ∧
    ∃ tok, ((getChannel demoScopes emptySrv ⟨"grafana", "dashboard", "abc"⟩).2 = .existing tok ∨
            (getChannel demoScopes emptySrv ⟨"grafana", "dashboard", "abc"⟩).2 = .created tok) ∧
      mapGet (getChannel demoScopes emptySrv ⟨"grafana", "dashboard", "abc"⟩).1.openMap
        (channelId ⟨"grafana", "dashboard", "abc"⟩) = some tok ∧
      getChannel demoScopes
          (getChannel demoScopes emptySrv ⟨"grafana", "dashboard", "abc"⟩).1
          ⟨"grafana", "dashboard", "abc"⟩ =
        ((getChannel demoScopes emptySrv ⟨"grafana", "dashboard", "abc"⟩).1,
          .existing tok) :=
  getChannel_dedup demoScopes emptySrv ⟨"grafana", "dashboard", "abc"⟩ rfl
    (by simp [KeysNodup, emptySrv])

/-- C3 counterexample: the registry key is the raw slash-joined string
and is looked up before the scope check (live.ts lines 111-120). After
registering the known-scope address (grafana, b/c, d), a call with the
unknown scope "grafana/b" and address (grafana/b, c, d) — whose id
string collides — returns the existing Pending channel held by the
registry rather than a fresh Invalid error channel. -/
theorem getChannel_invalidScope_counterexample :
    demoScopes "grafana/b" = none ∧
    (getChannel demoScopes
        (getChannel demoScopes emptySrv ⟨"grafana", "b/c", "d"⟩).1
        ⟨"grafana/b", "c", "d"⟩).2 = .existing 0 ∧
    (mapGet (getChannel demoScopes
        (getChannel demoScopes emptySrv ⟨"grafana", "b/c", "d"⟩).1
        ⟨"grafana/b", "c", "d"⟩).1.channels 0).map (fun c => c.state) =
      some .Pending ∧
    mapGet (getChannel demoScopes
        (getChannel demoScopes emptySrv ⟨"grafana", "b/c", "d"⟩).1
        ⟨"grafana/b", "c", "d"⟩).1.openMap "grafana/b/c/d" = some 0 := by
  refine ⟨rfl, ?_, ?_, ?_⟩ <;> rfl

/-- C3 amended: provided no channel is registered under the address's
id string, calling getChannel with an unknown scope returns a fresh
error channel that is immediately Invalid with the invalid-scope error
surfaced on its own stream, and the registry map is left unchanged (the
error channel is never inserted). -/
theorem getChannel_invalidScope (scopes : String → Option GrafanaLiveScope)
    (s : SrvState) (addr : LiveChannelAddress)
    (hscope : scopes addr.scope = none)
    (hfresh : mapGet s.openMap (channelId addr) = none) :
    (getChannel scopes s addr).2 = .errorChannel s.nextToken ∧
    mapGet (getChannel scopes s addr).1.channels s.nextToken =
      some (getErrorChannel "invalid scope" (channelId addr) addr) ∧
    (getErrorChannel "invalid scope" (channelId addr) addr).state = .Invalid ∧
    (getErrorChannel "invalid scope" (channelId addr) addr).statusErrors =
      ["invalid scope"] ∧
    (getChannel scopes s addr).1.openMap = s.openMap := by
  refine ⟨?_, ?_, rfl, rfl, ?_⟩ <;>
    simp [getChannel, hfresh, hscope, mapGet_set_self]

/-- Witness for C3 (amended) at a concrete unknown-scope address. -/
theorem getChannel_invalidScope_witness :
    (getChannel demoScopes emptySrv ⟨"bogus", "ns", "p"⟩).2 =
      .errorChannel emptySrv.nextToken ∧
    mapGet (getChannel demoScopes emptySrv ⟨"bogus", "ns", "p"⟩).1.channels
        emptySrv.nextToken =
      some (getErrorChannel "invalid scope" (channelId ⟨"bogus", "ns", "p"⟩)
        ⟨"bogus", "ns", "p"⟩) ∧
    (getErrorChannel "invalid scope" (channelId ⟨"bogus", "ns", "p"⟩)
      ⟨"bogus", "ns", "p"⟩).state = .Invalid ∧
    (getErrorChannel "invalid scope" (channelId ⟨"bogus", "ns", "p"⟩)
      ⟨"bogus", "ns", "p"⟩).statusErrors = ["invalid scope"] ∧
    (getChannel demoScopes emptySrv ⟨"bogus", "ns", "p"⟩).1.openMap =
      emptySrv.openMap :=
  getChannel_invalidScope demoScopes emptySrv ⟨"bogus", "ns", "p"⟩ rfl rfl

/-- C2: for a fresh address with a known scope, when the background
initialization fails (initChannelResult yields an error: no Support for
the namespace, no Config for the path, or a rejected transport
subscribe), getChannel still returned the channel normally, and the
background completion leaves the channel Invalid with the error
appearing as the status event on the channel's own stream, and removes
the channel's id from the registry map. -/
theorem initFailure_invalidates (scopes : String → Option GrafanaLiveScope)
    (s : SrvState) (addr : LiveChannelAddress) (scope : GrafanaLiveScope)
    (subRes : Except String Unit) (err : String)
    (hscope : scopes addr.scope = some scope)
    (hfresh : mapGet s.openMap (channelId addr) = none)
    (hfail : initChannelResult scope addr subRes = .error err) :
    (getChannel scopes s addr).2 = .created s.nextToken ∧
    mapGet (completeInit (getChannel scopes s addr).1 s.nextToken scope
        subRes).channels s.nextToken =
      some { id := channelId addr, addr := addr, state := .Invalid,
             statusErrors := [err] } ∧
    mapGet (completeInit (getChannel scopes s addr).1 s.nextToken scope
        subRes).openMap (channelId addr) = none := by
  have h1 : getChannel scopes s addr =
      ({ openMap := mapSet s.openMap (channelId addr) s.nextToken
         channels := mapSet s.channels s.nextToken
           (newLiveChannel (channelId addr) addr)
         nextToken := s.nextToken + 1 }, .created s.nextToken) := by
    simp [getChannel, hfresh, hscope]
  rw [h1]
  refine ⟨rfl, ?_, ?_⟩ <;>
    simp [completeInit, mapGet_set_self, newLiveChannel, hfail,
      handleInitError, mapGet_delete_self]

/-- Witness for C2: the spec scenario — address (grafana, dashboard,
abc) against a scope whose Support lacks a Config for path abc ends
Invalid with the unknown-path error and is no longer registered. -/
theorem initFailure_invalidates_witness :
    (getChannel demoScopes emptySrv ⟨"grafana", "dashboard", "abc"⟩).2 =
      .created emptySrv.nextToken ∧
    mapGet (completeInit (getChannel demoScopes emptySrv
          ⟨"grafana", "dashboard", "abc"⟩).1 emptySrv.nextToken demoScope
        (Except.ok ())).channels emptySrv.nextToken =
      some { id := channelId ⟨"grafana", "dashboard", "abc"⟩,
             addr := ⟨"grafana", "dashboard", "abc"⟩, state := .Invalid,
             statusErrors := ["unknown path: abc"] } ∧
    mapGet (completeInit (getChannel demoScopes emptySrv
          ⟨"grafana", "dashboard", "abc"⟩).1 emptySrv.nextToken demoScope
        (Except.ok ())).openMap (channelId ⟨"grafana", "dashboard", "abc"⟩) =
      none :=
  initFailure_invalidates demoScopes emptySrv ⟨"grafana", "dashboard", "abc"⟩
    demoScope (Except.ok ()) "unknown path: abc" rfl rfl rfl

/-- C5: after a registered channel is torn down — reaching Shutdown via
its shutdown callback or Invalid via the initialization catch handler —
its registry entry for the address is gone, and a subsequent getChannel
call with the same address allocates and returns a new channel object
whose token differs from the old channel's. -/
theorem teardown_then_fresh_channel (scopes : String → Option GrafanaLiveScope)
    (s : SrvState) (addr : LiveChannelAddress) (tok : Nat) (ch : ChannelState)
    (err : String)
    (hch : mapGet s.channels tok = some ch)
    (hid : ch.id = channelId addr)
    (hscope : (scopes addr.scope).isSome = true)
    (htok : tok < s.nextToken) :
    (mapGet (shutdownChannel s tok).openMap (channelId addr) = none ∧
      (getChannel scopes (shutdownChannel s tok) addr).2 = .created s.nextToken ∧
      (mapGet (shutdownChannel s tok).channels tok).map (fun c => c.state) =
        some .Shutdown) ∧
    (mapGet (handleInitError s tok err).openMap (channelId addr) = none ∧
      (getChannel scopes (handleInitError s tok err) addr).2 =
        .created s.nextToken ∧
      (mapGet (handleInitError s tok err).channels tok).map (fun c => c.state) =
        some .Invalid) ∧
    s.nextToken ≠ tok := by
  obtain ⟨scope, hsc⟩ := Option.isSome_iff_exists.mp hscope
  have hdel : mapGet (mapDelete s.openMap ch.id) (channelId addr) = none := by
    rw [← hid]
    exact mapGet_delete_self _ _
  have hsd : shutdownChannel s tok =
      { s with
          channels := mapSet s.channels tok { ch with state := .Shutdown }
          openMap := mapDelete s.openMap ch.id } := by
    simp [shutdownChannel, hch]
  have hie : handleInitError s tok err =
      { s with
          channels := mapSet s.channels tok
            { ch with state := .Invalid, statusErrors := ch.statusErrors ++ [err] }
          openMap := mapDelete s.openMap ch.id } := by
    simp [handleInitError, hch]
  refine ⟨⟨?_, ?_, ?_⟩, ⟨?_, ?_, ?_⟩, by omega⟩
  · rw [hsd]; exact hdel
  · rw [hsd]; simp [getChannel, hdel, hsc]
  · rw [hsd]; simp [mapGet_set_self]
  · rw [hie]; exact hdel
  · rw [hie]; simp [getChannel, hdel, hsc]
  · rw [hie]; simp [mapGet_set_self]

/-- Witness for C5: the channel created for (grafana, dashboard, abc)
over the empty registry, torn down and re-requested. -/
theorem teardown_then_fresh_channel_witness :
    (mapGet (shutdownChannel (getChannel demoScopes emptySrv
          ⟨"grafana", "dashboard", "abc"⟩).1 0).openMap
        (channelId ⟨"grafana", "dashboard", "abc"⟩) = none ∧
      (getChannel demoScopes (shutdownChannel (getChannel demoScopes emptySrv
          ⟨"grafana", "dashboard", "abc"⟩).1 0)
          ⟨"grafana", "dashboard", "abc"⟩).2 =
        .created (getChannel demoScopes emptySrv
          ⟨"grafana", "dashboard", "abc"⟩).1.nextToken ∧
      (mapGet (shutdownChannel (getChannel demoScopes emptySrv
          ⟨"grafana", "dashboard", "abc"⟩).1 0).channels 0).map
          (fun c => c.state) = some .Shutdown) ∧
    (mapGet (handleInitError (getChannel demoScopes emptySrv
          ⟨"grafana", "dashboard", "abc"⟩).1 0 "boom").openMap
        (channelId ⟨"grafana", "dashboard", "abc"⟩) = none ∧
      (getChannel demoScopes (handleInitError (getChannel demoScopes emptySrv
          ⟨"grafana", "dashboard", "abc"⟩).1 0 "boom")
          ⟨"grafana", "dashboard", "abc"⟩).2 =
        .created (getChannel demoScopes emptySrv
          ⟨"grafana", "dashboard", "abc"⟩).1.nextToken ∧
      (mapGet (handleInitError (getChannel demoScopes emptySrv
          ⟨"grafana", "dashboard", "abc"⟩).1 0 "boom").channels 0).map
          (fun c => c.state) = some .Invalid) ∧
    (getChannel demoScopes emptySrv ⟨"grafana", "dashboard", "abc"⟩).1.nextToken ≠ 0 :=
  teardown_then_fresh_channel demoScopes
    (getChannel demoScopes emptySrv ⟨"grafana", "dashboard", "abc"⟩).1
    ⟨"grafana", "dashboard", "abc"⟩ 0
    (newLiveChannel (channelId ⟨"grafana", "dashboard", "abc"⟩)
      ⟨"grafana", "dashboard", "abc"⟩) "boom" rfl rfl rfl (by decide)

/-- C6: for a fresh address with a known scope, getChannel returns the
newly allocated channel synchronously, and that channel is still
Pending at return time; the state transitions happen only in the
separate background completion step — to Connected when initialization
succeeds, to Invalid when it fails. -/
theorem getChannel_returns_pending (scopes : String → Option GrafanaLiveScope)
    (s : SrvState) (addr : LiveChannelAddress) (scope : GrafanaLiveScope)
    (subRes : Except String Unit) (err : String)
    (hscope : scopes addr.scope = some scope)
    (hfresh : mapGet s.openMap (channelId addr) = none) :
    (getChannel scopes s addr).2 = .created s.nextToken ∧
    (mapGet (getChannel scopes s addr).1.channels s.nextToken).map
      (fun c => c.state) = some .Pending ∧
    (initChannelResult scope addr subRes = .ok () →
      (mapGet (completeInit (getChannel scopes s addr).1 s.nextToken scope
          subRes).channels s.nextToken).map (fun c => c.state) =
        some .Connected) ∧
    (initChannelResult scope addr subRes = .error err →
      (mapGet (completeInit (getChannel scopes s addr).1 s.nextToken scope
          subRes).channels s.nextToken).map (fun c => c.state) =
        some .Invalid) := by
  have h1 : getChannel scopes s addr =
      ({ openMap := mapSet s.openMap (channelId addr) s.nextToken
         channels := mapSet s.channels s.nextToken
           (newLiveChannel (channelId addr) addr)
         nextToken := s.nextToken + 1 }, .created s.nextToken) := by
    simp [getChannel, hfresh, hscope]
  rw [h1]
  refine ⟨rfl, by simp [mapGet_set_self, newLiveChannel], ?_, ?_⟩
  · intro hok
    simp [completeInit, mapGet_set_self, newLiveChannel, hok]
  · intro herr
    simp [completeInit, mapGet_set_self, newLiveChannel, herr,
      handleInitError, mapGet_delete_self]

/-- Witness for C6 at a concrete address with a scope table that
resolves every path (the success branch applies: the channel is Pending
at return and Connected only after the background completion). -/
theorem getChannel_returns_pending_witness :
    (getChannel demoScopesOk emptySrv ⟨"grafana", "dashboard", "abc"⟩).2 =
      .created emptySrv.nextToken ∧
    (mapGet (getChannel demoScopesOk emptySrv
        ⟨"grafana", "dashboard", "abc"⟩).1.channels emptySrv.nextToken).map
      (fun c => c.state) = some .Pending ∧
    (initChannelResult demoScopeOk ⟨"grafana", "dashboard", "abc"⟩
        (Except.ok ()) = .ok () →
      (mapGet (completeInit (getChannel demoScopesOk emptySrv
          ⟨"grafana", "dashboard", "abc"⟩).1 emptySrv.nextToken demoScopeOk
          (Except.ok ())).channels emptySrv.nextToken).map (fun c => c.state) =
        some .Connected) ∧
    (initChannelResult demoScopeOk ⟨"grafana", "dashboard", "abc"⟩
        (Except.ok ()) = .error "boom" →
      (mapGet (completeInit (getChannel demoScopesOk emptySrv
          ⟨"grafana", "dashboard", "abc"⟩).1 emptySrv.nextToken demoScopeOk
          (Except.ok ())).channels emptySrv.nextToken).map (fun c => c.state) =
        some .Invalid) :=
  getChannel_returns_pending demoScopesOk emptySrv ⟨"grafana", "dashboard", "abc"⟩
    demoScopeOk (Except.ok ()) "boom" rfl rfl

/-! ### getChannelInfo -/

/-- getChannelInfo, live.ts lines 178-189: reject for an unknown scope;
reject when the scope resolves no support for the namespace; otherwise
resolve with the support's config lookup for the path — the non-null
assertion on line 188 is erased at runtime, so a missing config
resolves with an undefined value (none) rather than rejecting. -/
def getChannelInfo (scopes : String → Option GrafanaLiveScope)
    (addr : LiveChannelAddress) : Except String (Option LiveChannelConfig) :=
  match scopes addr.scope with
  | none => .error "invalid scope"
  | some scope =>
    match scope.getChannelSupport addr.ns with
    | none => .error (addr.ns ++ " does not support streaming")
    | some support => .ok (support.getChannelConfig addr.path)

/-- C10: for a known scope and a namespace with Support, getChannelInfo
always resolves — with exactly the support's config lookup for the
path; in particular, when the Support has no Config for the path it
resolves with the undefined value (none) instead of rejecting with an
unknown-path error. Rejection is therefore possible only in the two
earlier cases: unknown scope, or namespace without Support. -/
theorem getChannelInfo_unknownPath_resolves
    (scopes : String → Option GrafanaLiveScope) (addr : LiveChannelAddress)
    (scope : GrafanaLiveScope) (support : ChannelSupport)
    (hscope : scopes addr.scope = some scope)
    (hsup : scope.getChannelSupport addr.ns = some support) :
    getChannelInfo scopes addr = .ok (support.getChannelConfig addr.path) ∧
    (support.getChannelConfig addr.path = none →
      getChannelInfo scopes addr = .ok none) := by
  have h : getChannelInfo scopes addr = .ok (support.getChannelConfig addr.path) := by
    simp [getChannelInfo, hscope, hsup]
  exact ⟨h, fun hnone => by rw [h, hnone]⟩

/-- Witness for C10: a support lacking a config for path abc makes
getChannelInfo resolve with none rather than reject. -/
theorem getChannelInfo_unknownPath_resolves_witness :
    getChannelInfo demoScopes ⟨"grafana", "dashboard", "abc"⟩ =
      .ok ((ChannelSupport.mk fun _ => none).getChannelConfig "abc") ∧
    ((ChannelSupport.mk fun _ => none).getChannelConfig "abc" = none →
      getChannelInfo demoScopes ⟨"grafana", "dashboard", "abc"⟩ = .ok none) :=
  getChannelInfo_unknownPath_resolves demoScopes ⟨"grafana", "dashboard", "abc"⟩
    demoScope ⟨fun _ => none⟩ rfl rfl

/-! ### Connection gate (C7)

live.ts lines 64-73 build the one-shot connectionBlocker promise, and
lines 151-156 make initChannel await it before subscribing whenever the
transport is not yet connected. We model the interleaving of the
connect event with one channel's initialization as a small transition
system. -/

/-- The phases of one channel's initialization relative to the
connection gate: before the connectionBlocker resolves; past the gate;
subscribe issued; subscription acknowledged. -/
inductive InitPhase where
  | beforeGate
  | gatePassed
  | subscribed
  | acked
deriving DecidableEq, Repr

/-- Combined state of the transport connection flag and one channel's
initialization phase. -/
structure GateSys where
  connected : Bool
  phase : InitPhase
deriving DecidableEq, Repr

/-- Transition relation of the connection gate. connectEvent: the
transport reports connected (the connect listener, lines 68-72).
passGate: the one-shot connectionBlocker resolves, which lines 64-73
allow only in the connected state (resolve fires immediately when
already connected, otherwise from the connect listener). doSubscribe:
the queued subscribe call is issued, only after the blocker resolved
(lines 152-155). ack: the transport acknowledges the issued
subscription. -/
inductive gateStep : GateSys → GateSys → Prop
  | connectEvent (p : InitPhase) : gateStep ⟨false, p⟩ ⟨true, p⟩
  | passGate : gateStep ⟨true, .beforeGate⟩ ⟨true, .gatePassed⟩
  | doSubscribe (c : Bool) : gateStep ⟨c, .gatePassed⟩ ⟨c, .subscribed⟩
  | ack (c : Bool) : gateStep ⟨c, .subscribed⟩ ⟨c, .acked⟩

/-- Modelled from the spec: the channel status through initialization —
Pending from creation until the transport acknowledges the
subscription, Connected from the acknowledgement on. -/
def gateStatus : InitPhase → LiveChannelConnectionState
  | .acked => .Connected
  | _ => .Pending

/-- From every gate state, the queued subscribe can still complete:
the acknowledged state is reachable. -/
theorem gate_progress (g : GateSys) :
    Relation.ReflTransGen gateStep g ⟨true, .acked⟩ := by
  have t4 : Relation.ReflTransGen gateStep ⟨true, .acked⟩ ⟨true, .acked⟩ :=
    Relation.ReflTransGen.refl
  have t3 : Relation.ReflTransGen gateStep ⟨true, .subscribed⟩ ⟨true, .acked⟩ :=
    Relation.ReflTransGen.head (gateStep.ack true) t4
  have t2 : Relation.ReflTransGen gateStep ⟨true, .gatePassed⟩ ⟨true, .acked⟩ :=
    Relation.ReflTransGen.head (gateStep.doSubscribe true) t3
  have t1 : Relation.ReflTransGen gateStep ⟨true, .beforeGate⟩ ⟨true, .acked⟩ :=
    Relation.ReflTransGen.head gateStep.passGate t2
  obtain ⟨c, p⟩ := g
  cases c
  · have htrue : Relation.ReflTransGen gateStep ⟨true, p⟩ ⟨true, .acked⟩ := by
      cases p
      · exact t1
      · exact t2
      · exact t3
      · exact t4
    exact Relation.ReflTransGen.head (gateStep.connectEvent p) htrue
  · cases p
    · exact t1
    · exact t2
    · exact t3
    · exact t4

/-- C7: starting with the connection not yet established and the
channel about to await the gate, every reachable state satisfies: while
the transport is disconnected the initialization is still held before
the gate (no subscribe has been issued — it is queued, not failed) and
the channel status is still Pending; the status can be Connected only
once the transport reported connected; and from every reachable state
the queued subscribe can go on to complete, reaching Connected. -/
theorem connection_gate_queues_subscribe (s : GateSys)
    (h : Relation.ReflTransGen gateStep ⟨false, .beforeGate⟩ s) :
    (s.connected = false →
      s.phase = .beforeGate ∧ gateStatus s.phase = .Pending) ∧
    (gateStatus s.phase = .Connected → s.connected = true) ∧
    Relation.ReflTransGen gateStep s ⟨true, .acked⟩ := by
  have inv : ∀ t : GateSys,
      Relation.ReflTransGen gateStep ⟨false, .beforeGate⟩ t →
      (t.phase ≠ .beforeGate → t.connected = true) := by
    intro t ht
    induction ht with
    | refl => intro hc; exact absurd rfl hc
    | tail hab hstep ih =>
      cases hstep with
      | connectEvent p => intro _; rfl
      | passGate => intro _; rfl
      | doSubscribe c => intro _; exact ih (by simp)
      | ack c => intro _; exact ih (by simp)
  refine ⟨?_, ?_, gate_progress s⟩
  · intro hc
    have hphase : s.phase = .beforeGate := by
      by_contra hne
      rw [inv s h hne] at hc
      exact Bool.noConfusion hc
    exact ⟨hphase, by rw [hphase]; rfl⟩
  · intro hconn
    have hacked : s.phase = .acked := by
      cases hp : s.phase <;> rw [hp] at hconn <;>
        first | rfl | exact absurd hconn (by simp [gateStatus])
    refine inv s h ?_
    rw [hacked]
    simp

/-- Witness for C7 at the initial state: disconnected, before the
gate, still Pending, with the completed subscription reachable. -/
theorem connection_gate_queues_subscribe_witness :
    ((GateSys.mk false .beforeGate).connected = false →
      (GateSys.mk false .beforeGate).phase = .beforeGate ∧
        gateStatus (GateSys.mk false .beforeGate).phase = .Pending) ∧
    (gateStatus (GateSys.mk false .beforeGate).phase = .Connected →
      (GateSys.mk false .beforeGate).connected = true) ∧
    Relation.ReflTransGen gateStep ⟨false, .beforeGate⟩ ⟨true, .acked⟩ :=
  connection_gate_queues_subscribe ⟨false, .beforeGate⟩
    Relation.ReflTransGen.refl

/-! ### getDataStream (C8, C9) -/

/-- Loading state of a query response (LoadingState from grafana-data,
as used by live.ts). -/
inductive LoadingState where
  | NotStarted
  | Loading
  | Streaming
  | Done
  | Error
deriving DecidableEq, Repr

/-- A plain data frame value as delivered to consumers (DataFrame from
grafana-data, reduced to the schema and rows the streaming core
manipulates). -/
structure DataFrame where
  schema : List String := []
  rows : List (List Int) := []
deriving DecidableEq, Repr

/-- The frame snapshot a buffer delivers. -/
def StreamingDataFrame.toFrame (df : StreamingDataFrame) : DataFrame :=
  { schema := df.schema, rows := df.rows }

/-- dataFrameToJSON from grafana-data. Modelled from the spec: a frame
serializes to a schema-carrying message with its rows. -/
def dataFrameToJSON (f : DataFrame) : DataFrameJSON :=
  { schema := some f.schema, data := f.rows }

/-- One response emitted on the data stream (DataQueryResponse). The
entries of the data list may be undefined in the source (the error
paths emit data: [data] with data possibly undefined), hence Option
entries; toDataQueryError is modelled as the error string itself. -/
structure DataQueryResponse where
  state : LoadingState
  data : List (Option DataFrame)
  key : Option String := none
  error : Option String := none
deriving DecidableEq, Repr

/-- An event on a channel's stream (LiveChannelEvent from grafana-data):
a message event carrying a frame message, or a status event carrying a
state, an optional error and an optional message. -/
inductive LiveChannelEvent where
  | message (message : DataFrameJSON)
  | status (state : LiveChannelConnectionState) (error : Option String)
      (message : Option DataFrameJSON)
deriving DecidableEq, Repr

/-- Options of getDataStream (LiveDataStreamOptions from
grafana-runtime): address, optional initial frame, optional buffer
limit, optional key, and the field-name filter (empty when the source's
options.filter fields are absent or empty). -/
structure LiveDataStreamOptions where
  addr : LiveChannelAddress
  frame : Option DataFrame := none
  buffer : Option Nat := none
  key : Option String := none
  filter : List String := []
deriving DecidableEq, Repr

/-- Modelled from the spec: isValidLiveChannelAddress from grafana-data
(not under src/) — a well-formed address has a nonempty scope,
namespace and path. -/
def isValidLiveChannelAddress (addr : LiveChannelAddress) : Bool :=
  !addr.scope.isEmpty && !addr.ns.isEmpty && !addr.path.isEmpty

/-- The JSON rendering of an address object, as interpolated into the
invalid-address error message of live.ts line 204. -/
def jsonStringifyAddr (addr : LiveChannelAddress) : String :=
  "\x7b\"scope\":\"" ++ addr.scope ++ "\",\"namespace\":\"" ++ addr.ns ++
    "\",\"path\":\"" ++ addr.path ++ "\"\x7d"

/-- The mutable closure state of one getDataStream subscription,
live.ts lines 210-300: the accumulated buffer, the current loading
state, the responses delivered so far, whether the channel subscription
was unsubscribed (closed — no further deliveries), and whether the
outer stream was completed. -/
structure DataStreamAcc where
  data : Option StreamingDataFrame
  state : LoadingState
  out : List DataQueryResponse
  closed : Bool
  completedOuter : Bool
deriving DecidableEq, Repr

/-- The field filter of live.ts lines 239-250: keep only the fields
whose name is in the requested subset. The source's filtered view
shares the buffer's live column values, so the delivered view always
reflects the current buffer; we model it by recomputing the projection
against the current buffer at emission. -/
def filterFrame (fields : List String) (df : StreamingDataFrame) : DataFrame :=
  { schema := df.schema.filter (fun n => fields.contains n)
    rows := df.rows.map (fun r =>
      ((df.schema.zip r).filter (fun p => fields.contains p.1)).map Prod.snd) }

/-- process(msg), live.ts lines 230-258: fold the message into the
buffer (creating the buffer on first use), set the state to Streaming,
and, when the emission throttle allows (elapsed above the interval or
perf.ok, supplied as emitOk), deliver one response carrying the
possibly field-filtered frame. -/
def processMsg (options : LiveDataStreamOptions) (key : String)
    (acc : DataStreamAcc) (msg : DataFrameJSON) (emitOk : Bool) :
    DataStreamAcc :=
  let data := match acc.data with
    | none => StreamingDataFrame.ofMsg msg options.buffer
    | some d => d.push msg
  let acc := { acc with data := some data, state := LoadingState.Streaming }
  if emitOk then
    let frame := if options.filter.isEmpty then data.toFrame
      else filterFrame options.filter data
    { acc with out := acc.out ++
        [{ state := LoadingState.Streaming, data := [some frame],
           key := some key }] }
  else acc

/-- The next callback of the channel subscription, live.ts lines
276-299: message events are processed; a status event carrying an error
delivers one error response (with the streaming-channel prefix) and
returns without closing the stream; a Connected or Pending status event
processes its attached message when present; other status events are
ignored. -/
def handleNext (options : LiveDataStreamOptions) (key : String)
    (acc : DataStreamAcc) (evt : LiveChannelEvent) (emitOk : Bool) :
    DataStreamAcc :=
  match evt with
  | .message msg => processMsg options key acc msg emitOk
  | .status st err msg =>
    match err with
    | some e =>
      { acc with
          state := LoadingState.Error
          out := acc.out ++
            [{ state := .Error,
               data := [acc.data.map StreamingDataFrame.toFrame],
               key := some key,
               error := some ("Streaming channel error: " ++ e) }] }
    | none =>
      if st = .Connected ∨ st = .Pending then
        match msg with
        | some m => processMsg options key acc m emitOk
        | none => acc
      else acc

/-- The error callback, live.ts lines 261-266: set the state to Error,
deliver exactly one response carrying the error, and unsubscribe from
the channel stream, closing delivery. -/
def handleStreamError (key : String) (acc : DataStreamAcc) (e : String) :
    DataStreamAcc :=
  { acc with
      state := LoadingState.Error
      closed := true
      out := acc.out ++
        [{ state := .Error,
           data := [acc.data.map StreamingDataFrame.toFrame],
           key := some key, error := some e }] }

/-- The complete callback, live.ts lines 267-275: move a non-error
state to Done, complete the outer stream, and unsubscribe. -/
def handleComplete (acc : DataStreamAcc) : DataStreamAcc :=
  { acc with
      state := if acc.state ≠ LoadingState.Error then .Done else acc.state,
      completedOuter := true, closed := true }

/-- One occurrence on the channel's stream as seen by the subscriber: a
next event (tagged with whether the emission throttle is open), the
stream failing with an error, or the stream completing. -/
inductive InnerItem where
  | next (evt : LiveChannelEvent) (emitOk : Bool)
  | fail (e : String)
  | done
deriving DecidableEq, Repr

/-- Deliver one stream occurrence to the subscription handler. A closed
subscription (after unsubscribe, or after the inner stream terminated)
delivers nothing. -/
def stepItem (options : LiveDataStreamOptions) (key : String)
    (acc : DataStreamAcc) (item : InnerItem) : DataStreamAcc :=
  if acc.closed then acc
  else
    match item with
    | .next evt emitOk => handleNext options key acc evt emitOk
    | .fail e => handleStreamError key acc e
    | .done => handleComplete acc

/-- Run the getDataStream subscription handler over a sequence of
stream occurrences. -/
def runDataStream (options : LiveDataStreamOptions) (key : String)
    (acc : DataStreamAcc) (items : List InnerItem) : DataStreamAcc :=
  items.foldl (stepItem options key) acc

/-- The initial closure state of a getDataStream subscription, live.ts
lines 212-224: an options frame seeds the buffer and sets Streaming;
otherwise a cached last message with schema on the channel seeds the
buffer; otherwise the buffer starts empty; the state starts Loading. -/
def initAcc (options : LiveDataStreamOptions)
    (lastMsg : Option DataFrameJSON) : DataStreamAcc :=
  match options.frame with
  | some f =>
    { data := some (StreamingDataFrame.ofMsg (dataFrameToJSON f) options.buffer)
      state := .Streaming, out := [], closed := false, completedOuter := false }
  | none =>
    match lastMsg with
    | some m =>
      { data := some (StreamingDataFrame.ofMsg m options.buffer)
        state := .Loading, out := [], closed := false, completedOuter := false }
    | none =>
      { data := none, state := .Loading, out := [], closed := false,
        completedOuter := false }

/-- How a getDataStream call starts: either the single invalid-address
error response (no channel is created or touched), or a subscription to
the registry channel with the given token, resolved key and initial
closure state. -/
inductive GetDataStreamInit where
  | invalidAddr (resp : DataQueryResponse)
  | subscribed (tok : Nat) (key : String) (acc : DataStreamAcc)
deriving DecidableEq, Repr

/-- getDataStream entry, live.ts lines 201-228: an invalid channel
address short-circuits to a single error response that carries the
initial frame when one was supplied, without touching the registry;
otherwise the channel is obtained from the registry and the
subscription closure is set up (counter stands for the module-level
streamCounter used when no key is supplied). -/
def getDataStream (scopes : String → Option GrafanaLiveScope) (counter : Nat)
    (s : SrvState) (options : LiveDataStreamOptions) :
    SrvState × GetDataStreamInit :=
  if isValidLiveChannelAddress options.addr then
    let res := getChannel scopes s options.addr
    let lastMsg := (mapGet res.1.channels res.2.tok).bind
      (fun c => c.lastMessageWithSchema)
    let key := options.key.getD ("xstr/" ++ toString counter)
    (res.1, .subscribed res.2.tok key (initAcc options lastMsg))
  else
    (s, .invalidAddr
      { state := .Error
        data := (match options.frame with | some f => [some f] | none => [])
        error := some ("invalid channel address: " ++
          jsonStringifyAddr options.addr) })

/-- C9: when the options address fails the validity check, getDataStream
leaves the registry state untouched (no channel is created or looked
up) and yields the single error response: LoadingState.Error, an error
naming the invalid address, and data holding exactly the supplied
initial frame, or nothing when none was supplied. -/
theorem dataStream_invalid_address (scopes : String → Option GrafanaLiveScope)
    (counter : Nat) (s : SrvState) (options : LiveDataStreamOptions)
    (h : isValidLiveChannelAddress options.addr = false) :
    getDataStream scopes counter s options =
      (s, .invalidAddr
        { state := .Error
          data := (match options.frame with | some f => [some f] | none => [])
          error := some ("invalid channel address: " ++
            jsonStringifyAddr options.addr) }) := by
  simp [getDataStream, h]

/-- Witness for C9: an address with an empty scope is invalid; the
supplied initial frame is echoed in the error response and the registry
is untouched. -/
theorem dataStream_invalid_address_witness :
    getDataStream demoScopes 0 emptySrv
        { addr := ⟨"", "dashboard", "abc"⟩,
          frame := some { schema := ["time"], rows := [[1]] } } =
      (emptySrv, .invalidAddr
        { state := .Error
          data := (match some (DataFrame.mk ["time"] [[1]]) with
            | some f => [some f] | none => [])
          error := some ("invalid channel address: " ++
            jsonStringifyAddr ⟨"", "dashboard", "abc"⟩) }) :=
  dataStream_invalid_address demoScopes 0 emptySrv
    { addr := ⟨"", "dashboard", "abc"⟩,
      frame := some { schema := ["time"], rows := [[1]] } } rfl

/-- A closed subscription delivers nothing for any further stream
occurrences. -/
theorem runDataStream_closed (options : LiveDataStreamOptions) (key : String)
    (acc : DataStreamAcc) (items : List InnerItem) (h : acc.closed = true) :
    runDataStream options key acc items = acc := by
  induction items with
  | nil => rfl
  | cons it rest ih =>
    have hstep : stepItem options key acc it = acc := by simp [stepItem, h]
    simp only [runDataStream, List.foldl_cons, hstep]
    exact ih

/-- C8: a mid-stream error of the channel stream (the error callback of
the subscription), arriving while the subscription is still open,
moves the delivered state to Error, appends exactly one response — an
error response carrying the current buffer — to the delivered output,
closes the subscription, and makes every further stream occurrence
deliver nothing: the final state over any continuation equals the state
right after the error. No retry of the subscription exists. -/
theorem dataStream_error_terminal (options : LiveDataStreamOptions)
    (key : String) (acc0 : DataStreamAcc) (items rest : List InnerItem)
    (e : String)
    (hopen : (runDataStream options key acc0 items).closed = false) :
    (runDataStream options key acc0 (items ++ [.fail e])).state = .Error ∧
    (runDataStream options key acc0 (items ++ [.fail e])).out =
      (runDataStream options key acc0 items).out ++
        [{ state := .Error,
           data := [(runDataStream options key acc0 items).data.map
             StreamingDataFrame.toFrame],
           key := some key, error := some e }] ∧
    (runDataStream options key acc0 (items ++ [.fail e])).closed = true ∧
    runDataStream options key acc0 (items ++ [.fail e] ++ rest) =
      runDataStream options key acc0 (items ++ [.fail e]) := by
  have hsplit : runDataStream options key acc0 (items ++ [.fail e]) =
      stepItem options key (runDataStream options key acc0 items) (.fail e) := by
    simp [runDataStream, List.foldl_append]
  have hstep : stepItem options key (runDataStream options key acc0 items)
      (.fail e) = handleStreamError key (runDataStream options key acc0 items) e := by
    simp [stepItem, hopen]
  have hclosed : (runDataStream options key acc0 (items ++ [.fail e])).closed =
      true := by
    rw [hsplit, hstep]
    rfl
  refine ⟨?_, ?_, hclosed, ?_⟩
  · rw [hsplit, hstep]; rfl
  · rw [hsplit, hstep]; simp [handleStreamError]
  · have : runDataStream options key acc0 (items ++ [.fail e] ++ rest) =
        runDataStream options key
          (runDataStream options key acc0 (items ++ [.fail e])) rest := by
      simp [runDataStream, List.foldl_append]
    rw [this]
    exact runDataStream_closed options key _ rest hclosed

/-- Witness for C8: an open subscription receiving the stream error
"boom" and then one more (undelivered) message event. -/
theorem dataStream_error_terminal_witness :
    (runDataStream { addr := ⟨"grafana", "dashboard", "abc"⟩ } "k"
        ⟨none, .Loading, [], false, false⟩ ([] ++ [.fail "boom"])).state =
      .Error ∧
    (runDataStream { addr := ⟨"grafana", "dashboard", "abc"⟩ } "k"
        ⟨none, .Loading, [], false, false⟩ ([] ++ [.fail "boom"])).out =
      (runDataStream { addr := ⟨"grafana", "dashboard", "abc"⟩ } "k"
        ⟨none, .Loading, [], false, false⟩ []).out ++
        [{ state := .Error,
           data := [(runDataStream { addr := ⟨"grafana", "dashboard", "abc"⟩ }
             "k" ⟨none, .Loading, [], false, false⟩ []).data.map
               StreamingDataFrame.toFrame],
           key := some "k", error := some "boom" }] ∧
    (runDataStream { addr := ⟨"grafana", "dashboard", "abc"⟩ } "k"
        ⟨none, .Loading, [], false, false⟩ ([] ++ [.fail "boom"])).closed =
      true ∧
    runDataStream { addr := ⟨"grafana", "dashboard", "abc"⟩ } "k"
        ⟨none, .Loading, [], false, false⟩
        ([] ++ [.fail "boom"] ++ [.next (.message { data := [[2]] }) true]) =
      runDataStream { addr := ⟨"grafana", "dashboard", "abc"⟩ } "k"
        ⟨none, .Loading, [], false, false⟩ ([] ++ [.fail "boom"]) :=
  dataStream_error_terminal { addr := ⟨"grafana", "dashboard", "abc"⟩ } "k"
    ⟨none, .Loading, [], false, false⟩ []
    [.next (.message { data := [[2]] }) true] "boom" rfl

end Live
